import Mathlib

/-!
# Verification of the go-smpp PDU layer

Shallow embedding of the `pdu` and `pdutext` packages of the go-smpp
repository: the PDU command-id constants and per-command mandatory field
lists of `smpp/pdu/types.go`, and the ISO-8859-1 text codec of
`smpp/pdu/pdutext/iso88591.go` (whose `Encode`/`Decode` call
`transform.Bytes` with the `charmap.ISO8859_1` encoder/decoder of
golang.org/x/text).

Bytes are modelled as natural numbers below 256, byte strings as
`List Nat`, and Go's `uint32` constants as natural numbers.
-/

namespace GoSmpp

/-! ## PDU command ids (`smpp/pdu/types.go`, `const` block) -/

abbrev ID := Nat

def GenericNACKID : ID := 0x80000000
def BindReceiverID : ID := 0x00000001
def BindReceiverRespID : ID := 0x80000001
def BindTransmitterID : ID := 0x00000002
def BindTransmitterRespID : ID := 0x80000002
def QuerySMID : ID := 0x00000003
def QuerySMRespID : ID := 0x80000003
def SubmitSMID : ID := 0x00000004
def SubmitSMRespID : ID := 0x80000004
def DeliverSMID : ID := 0x00000005
def DeliverSMRespID : ID := 0x80000005
def UnbindID : ID := 0x00000006
def UnbindRespID : ID := 0x80000006
def ReplaceSMID : ID := 0x00000007
def ReplaceSMRespID : ID := 0x80000007
def CancelSMID : ID := 0x00000008
def CancelSMRespID : ID := 0x80000008
def BindTransceiverID : ID := 0x00000009
def BindTransceiverRespID : ID := 0x80000009
def OutbindID : ID := 0x0000000B
def EnquireLinkID : ID := 0x00000015
def EnquireLinkRespID : ID := 0x80000015
def SubmitMultiID : ID := 0x00000021
def SubmitMultiRespID : ID := 0x80000021
def AlertNotificationID : ID := 0x00000102
def DataSMID : ID := 0x00000103
def DataSMRespID : ID := 0x80000103

/-! ## Mandatory field names (package `pdufield`)

The `pdufield` package itself is not under version control here; the names
below are exactly the identifiers referenced by `smpp/pdu/types.go`.  Only
their identity matters for the field-list claims, so they are modelled as
constructors of an inductive type. -/

inductive FieldName
  | SystemID
  | Password
  | SystemType
  | InterfaceVersion
  | AddrTON
  | AddrNPI
  | AddressRange
  | MessageID
  | FinalDate
  | MessageState
  | ErrorCode
  | SourceAddrTON
  | SourceAddrNPI
  | SourceAddr
  | ServiceType
  | DestAddrTON
  | DestAddrNPI
  | DestinationAddr
  | ESMClass
  | ProtocolID
  | PriorityFlag
  | ScheduleDeliveryTime
  | ValidityPeriod
  | RegisteredDelivery
  | ReplaceIfPresentFlag
  | DataCodingField
  | SMDefaultMsgID
  | SMLength
  | UDHLength
  | GSMUserData
  | ShortMessageField
  | NumberDests
  | DestinationList
  | NoUnsuccess
  | UnsuccessSme
deriving DecidableEq, Repr

open FieldName

/-! ## PDU header and codec skeleton

`Header` and `Codec` live in `smpp/pdu` files that are not under src/.
`Header` carries the four SMPP header words; Go zero-initialises the
members a composite literal omits, which the default values mirror. -/

structure Header where
  Len : Nat := 0
  ID : ID := 0
  Status : Nat := 0
  Seq : Nat := 0
deriving DecidableEq, Repr

/-- Codec skeleton shared by every PDU of `types.go`: the header `h`, the
declared mandatory-field list `l`, and the map `f` of field values that
have actually been set (modelled as an association list). -/
structure Codec where
  h : Header
  l : List FieldName := []
  f : List (FieldName × List Nat) := []
deriving DecidableEq, Repr

/-- Modelled from the spec: `Codec.init` lives in a `smpp/pdu` file that is
not under src/.  Per the spec's data model, a freshly constructed PDU body
is "an ordered list of mandatory fields" with no values populated yet;
`init` allocates the empty value maps and leaves the header and the
declared field list untouched. -/
def Codec.init (c : Codec) : Codec :=
  { c with f := [] }

/-- Modelled from the spec: accessor for the populated mandatory-field
values of a PDU body (the dynamically typed field map of §9's design
notes); the defining file is not under src/. -/
def Codec.Fields (c : Codec) : List (FieldName × List Nat) :=
  c.f

def Codec.FieldList (c : Codec) : List FieldName :=
  c.l

/-! ## PDU constructors (`smpp/pdu/types.go`) -/

def newGenericNACK (hdr : Header) : Codec :=
  { h := hdr }

def NewGenericNACK : Codec :=
  (newGenericNACK { ID := GenericNACKID }).init

def newBind (hdr : Header) : Codec :=
  { h := hdr
    l := [SystemID, Password, SystemType, InterfaceVersion,
          AddrTON, AddrNPI, AddressRange] }

def NewBindReceiver : Codec :=
  (newBind { ID := BindReceiverID }).init

def NewBindTransceiver : Codec :=
  (newBind { ID := BindTransceiverID }).init

def NewBindTransmitter : Codec :=
  (newBind { ID := BindTransmitterID }).init

def newBindResp (hdr : Header) : Codec :=
  { h := hdr, l := [SystemID] }

def NewBindReceiverResp : Codec :=
  (newBindResp { ID := BindReceiverRespID }).init

def NewBindReceiverRespSeq (seq : Nat) : Codec :=
  (newBindResp { ID := BindReceiverRespID, Seq := seq }).init

def NewBindTransceiverResp : Codec :=
  (newBindResp { ID := BindTransceiverRespID }).init

def NewBindTransceiverRespSeq (seq : Nat) : Codec :=
  (newBindResp { ID := BindTransceiverRespID, Seq := seq }).init

def NewBindTransmitterResp : Codec :=
  (newBindResp { ID := BindTransmitterRespID }).init

def NewBindTransmitterRespSeq (seq : Nat) : Codec :=
  (newBindResp { ID := BindTransmitterRespID, Seq := seq }).init

def newQuerySM (hdr : Header) : Codec :=
  { h := hdr
    l := [MessageID, SourceAddrTON, SourceAddrNPI, SourceAddr] }

def NewQuerySM : Codec :=
  (newQuerySM { ID := QuerySMID }).init

def newQuerySMResp (hdr : Header) : Codec :=
  { h := hdr
    l := [MessageID, FinalDate, MessageState, ErrorCode] }

def NewQuerySMResp : Codec :=
  (newQuerySMResp { ID := QuerySMRespID }).init

def NewQuerySMRespSeq (seq : Nat) : Codec :=
  (newQuerySMResp { ID := QuerySMRespID, Seq := seq }).init

def newSubmitSM (hdr : Header) : Codec :=
  { h := hdr
    l := [ServiceType, SourceAddrTON, SourceAddrNPI, SourceAddr,
          DestAddrTON, DestAddrNPI, DestinationAddr, ESMClass,
          ProtocolID, PriorityFlag, ScheduleDeliveryTime, ValidityPeriod,
          RegisteredDelivery, ReplaceIfPresentFlag, DataCodingField,
          SMDefaultMsgID, SMLength, UDHLength, GSMUserData,
          ShortMessageField] }

def NewSubmitSM : Codec :=
  (newSubmitSM { ID := SubmitSMID }).init

def newSubmitSMResp (hdr : Header) : Codec :=
  { h := hdr, l := [MessageID] }

def NewSubmitSMResp : Codec :=
  (newSubmitSMResp { ID := SubmitSMRespID }).init

def NewSubmitSMRespSeq (seq : Nat) : Codec :=
  (newSubmitSMResp { ID := SubmitSMRespID, Seq := seq }).init

def newSubmitMulti (hdr : Header) : Codec :=
  { h := hdr
    l := [ServiceType, SourceAddrTON, SourceAddrNPI, SourceAddr,
          NumberDests, DestinationList, ESMClass, ProtocolID,
          PriorityFlag, ScheduleDeliveryTime, ValidityPeriod,
          RegisteredDelivery, ReplaceIfPresentFlag, DataCodingField,
          SMDefaultMsgID, SMLength, ShortMessageField] }

def NewSubmitMulti : Codec :=
  (newSubmitMulti { ID := SubmitMultiID }).init

def newSubmitMultiResp (hdr : Header) : Codec :=
  { h := hdr, l := [MessageID, NoUnsuccess, UnsuccessSme] }

def NewSubmitMultiResp : Codec :=
  (newSubmitMultiResp { ID := SubmitMultiRespID }).init

def NewSubmitMultiRespSeq (seq : Nat) : Codec :=
  (newSubmitMultiResp { ID := SubmitMultiRespID, Seq := seq }).init

def newDeliverSM (hdr : Header) : Codec :=
  { h := hdr
    l := [ServiceType, SourceAddrTON, SourceAddrNPI, SourceAddr,
          DestAddrTON, DestAddrNPI, DestinationAddr, ESMClass,
          ProtocolID, PriorityFlag, ScheduleDeliveryTime, ValidityPeriod,
          RegisteredDelivery, ReplaceIfPresentFlag, DataCodingField,
          SMDefaultMsgID, SMLength, UDHLength, GSMUserData,
          ShortMessageField] }

def NewDeliverSM : Codec :=
  (newDeliverSM { ID := DeliverSMID }).init

def newDeliverSMResp (hdr : Header) : Codec :=
  { h := hdr, l := [MessageID] }

def NewDeliverSMResp : Codec :=
  (newDeliverSMResp { ID := DeliverSMRespID }).init

def NewDeliverSMRespSeq (seq : Nat) : Codec :=
  (newDeliverSMResp { ID := DeliverSMRespID, Seq := seq }).init

def newUnbind (hdr : Header) : Codec :=
  { h := hdr }

def NewUnbind : Codec :=
  (newUnbind { ID := UnbindID }).init

def newUnbindResp (hdr : Header) : Codec :=
  { h := hdr }

def NewUnbindResp : Codec :=
  (newUnbindResp { ID := UnbindRespID }).init

def NewUnbindRespSeq (seq : Nat) : Codec :=
  (newUnbindResp { ID := UnbindRespID, Seq := seq }).init

def newEnquireLink (hdr : Header) : Codec :=
  { h := hdr }

def NewEnquireLink : Codec :=
  (newEnquireLink { ID := EnquireLinkID }).init

def newEnquireLinkResp (hdr : Header) : Codec :=
  { h := hdr }

def NewEnquireLinkResp : Codec :=
  (newEnquireLinkResp { ID := EnquireLinkRespID }).init

def NewEnquireLinkRespSeq (seq : Nat) : Codec :=
  (newEnquireLinkResp { ID := EnquireLinkRespID, Seq := seq }).init

/-! ## ISO-8859-1 text codec (`smpp/pdu/pdutext/iso88591.go`)

`ISO88591.Encode` runs `transform.Bytes` with `charmap.ISO8859_1.NewEncoder()`
and returns the input unchanged when the transform reports an error;
`Decode` does the same with the decoder.  The x/text charmap encoder walks
the input as UTF-8: an ASCII byte passes through, a multi-byte sequence is
decoded with `utf8.DecodeRune` (an invalid sequence is an error), and the
decoded rune is looked up in the charmap table — for ISO8859_1 that table
is the identity on code points U+0000..U+00FF, and any other rune is an
error.  The charmap decoder maps every byte b to code point b and writes
its UTF-8 encoding; for ISO8859_1 it can never fail. -/

abbrev DataCoding := Nat

/-- Modelled from the spec: the `pdutext` file declaring the `DataCoding`
constants is not under src/.  The spec's codec table assigns data coding
0x00 to the default alphabet (`GSM7`/`Raw` → 0x00), and the in-tree test
constant `iso88591TypeCode = 0x00` pins `DefaultType` to 0x00. -/
def DefaultType : DataCoding := 0x00

/-- Modelled from the spec: "`Latin1` → 0x03" in the spec's codec table;
the declaring file is not under src/. -/
def Latin1Type : DataCoding := 0x03

/-- `ISO88591.Type` of iso88591.go: returns `DefaultType` whatever the
codec's byte string is. -/
def ISO88591Type (_s : List Nat) : DataCoding :=
  DefaultType

/-- UTF-8 encoding of one code point (Go's `utf8.EncodeRune`), written
with division and remainder in place of Go's shifts and masks. -/
def utf8EncodeChar (r : Nat) : List Nat :=
  if r < 0x80 then
    [r]
  else if r < 0x800 then
    [0xC0 + r / 0x40, 0x80 + r % 0x40]
  else if r < 0x10000 then
    [0xE0 + r / 0x1000, 0x80 + (r / 0x40) % 0x40, 0x80 + r % 0x40]
  else
    [0xF0 + r / 0x40000, 0x80 + (r / 0x1000) % 0x40,
     0x80 + (r / 0x40) % 0x40, 0x80 + r % 0x40]

/-- UTF-8 bytes of a string given by its list of code points. -/
def utf8Bytes (rs : List Nat) : List Nat :=
  rs.flatMap utf8EncodeChar

/-- One step of Go's `utf8.DecodeRune` on a byte list: the decoded code
point and the remaining bytes, or `none` for an invalid sequence
(truncation, bad continuation byte, overlong form, surrogate, or a value
beyond U+10FFFF). -/
def utf8DecodeRune : List Nat → Option (Nat × List Nat)
  | [] => none
  | b0 :: rest =>
    if b0 < 0x80 then
      some (b0, rest)
    else if b0 < 0xC0 then
      none
    else if b0 < 0xE0 then
      match rest with
      | b1 :: rest1 =>
        if 0x80 ≤ b1 ∧ b1 < 0xC0 then
          let r := (b0 - 0xC0) * 0x40 + (b1 - 0x80)
          if 0x80 ≤ r then some (r, rest1) else none
        else none
      | [] => none
    else if b0 < 0xF0 then
      match rest with
      | b1 :: b2 :: rest2 =>
        if (0x80 ≤ b1 ∧ b1 < 0xC0) ∧ (0x80 ≤ b2 ∧ b2 < 0xC0) then
          let r := (b0 - 0xE0) * 0x1000 + (b1 - 0x80) * 0x40 + (b2 - 0x80)
          if 0x800 ≤ r ∧ ¬(0xD800 ≤ r ∧ r < 0xE000) then
            some (r, rest2)
          else none
        else none
      | _ => none
    else if b0 < 0xF8 then
      match rest with
      | b1 :: b2 :: b3 :: rest3 =>
        if (0x80 ≤ b1 ∧ b1 < 0xC0) ∧ (0x80 ≤ b2 ∧ b2 < 0xC0) ∧
            (0x80 ≤ b3 ∧ b3 < 0xC0) then
          let r := (b0 - 0xF0) * 0x40000 + (b1 - 0x80) * 0x1000 +
                    (b2 - 0x80) * 0x40 + (b3 - 0x80)
          if 0x10000 ≤ r ∧ r ≤ 0x10FFFF then some (r, rest3) else none
        else none
      | _ => none
    else none

/-- The x/text charmap encoder loop over a byte list holding UTF-8: decode
one rune at a time; a rune in the ISO8859_1 table (exactly the code points
up to 0xFF, mapped to themselves) emits its byte; any decode failure or
out-of-table rune is an error (`none`).  Each step consumes at least one
byte, so fuel equal to the input length (as `latin1TransformEnc` passes)
is never exhausted; the fuel only makes the recursion structural. -/
def latin1EncodeLoop : Nat → List Nat → Option (List Nat)
  | _, [] => some []
  | 0, _ :: _ => none
  | fuel + 1, b :: bs =>
    match utf8DecodeRune (b :: bs) with
    | none => none
    | some (r, t) =>
      if r ≤ 0xFF then
        match latin1EncodeLoop fuel t with
        | some out => some (r :: out)
        | none => none
      else none

/-- `transform.Bytes(charmap.ISO8859_1.NewEncoder(), s)` as an `Option`:
`some` of the Latin-1 bytes, or `none` when the transform errors. -/
def latin1TransformEnc (s : List Nat) : Option (List Nat) :=
  latin1EncodeLoop s.length s

/-- `transform.Bytes(charmap.ISO8859_1.NewDecoder(), s)`: every byte b
decodes to code point b, written out as UTF-8; the transform never
errors, so the result is always `some`. -/
def latin1TransformDec (s : List Nat) : Option (List Nat) :=
  some (s.flatMap utf8EncodeChar)

/-- `ISO88591.Encode` of iso88591.go: the transformed bytes, or the input
itself when the transform reports an error. -/
def ISO88591Encode (s : List Nat) : List Nat :=
  match latin1TransformEnc s with
  | some es => es
  | none => s

/-- `ISO88591.Decode` of iso88591.go: the transformed bytes, or the input
itself when the transform reports an error. -/
def ISO88591Decode (s : List Nat) : List Nat :=
  match latin1TransformDec s with
  | some es => es
  | none => s

/-! ## Helper lemmas for the ISO-8859-1 round trip -/

/-- Decoding one rune from the UTF-8 bytes of a code point below 0x100
(prepended to any tail) recovers that code point and the tail. -/
theorem utf8DecodeRune_encodeChar (r : Nat) (hr : r < 0x100) (t : List Nat) :
    utf8DecodeRune (utf8EncodeChar r ++ t) = some (r, t) := by
  by_cases h : r < 0x80
  · simp only [utf8EncodeChar, if_pos h, List.cons_append, List.nil_append,
      utf8DecodeRune, if_pos h]
  · have h8 : ¬ r < 0x80 := h
    have h800 : r < 0x800 := by omega
    simp only [utf8EncodeChar, if_neg h8, if_pos h800, List.cons_append,
      List.nil_append, utf8DecodeRune]
    have h0 : ¬ (0xC0 + r / 0x40 < 0x80) := by omega
    have h1 : ¬ (0xC0 + r / 0x40 < 0xC0) := by omega
    have h2 : 0xC0 + r / 0x40 < 0xE0 := by omega
    have h3 : 0x80 ≤ 0x80 + r % 0x40 ∧ 0x80 + r % 0x40 < 0xC0 := by omega
    simp only [if_neg h0, if_neg h1, if_pos h2, if_pos h3]
    have h4 : (0xC0 + r / 0x40 - 0xC0) * 0x40 + (0x80 + r % 0x40 - 0x80) = r := by
      omega
    rw [h4]
    simp only [if_pos (by omega : 0x80 ≤ r)]

/-- The charmap encoder loop inverts `utf8Bytes` on strings of code points
below 0x100, for any fuel at least the byte length. -/
theorem latin1EncodeLoop_utf8Bytes (rs : List Nat) (hrs : ∀ r ∈ rs, r < 0x100) :
    ∀ fuel, (utf8Bytes rs).length ≤ fuel →
      latin1EncodeLoop fuel (utf8Bytes rs) = some rs := by
  induction rs with
  | nil =>
    intro fuel _
    cases fuel <;> rfl
  | cons r rs ih =>
    intro fuel hfuel
    have hr : r < 0x100 := hrs r (by simp)
    have hrs2 : ∀ x ∈ rs, x < 0x100 := fun x hx => hrs x (by simp [hx])
    have hbytes : utf8Bytes (r :: rs) = utf8EncodeChar r ++ utf8Bytes rs := by
      simp [utf8Bytes]
    have hlen : 1 ≤ (utf8EncodeChar r).length := by
      simp only [utf8EncodeChar]
      split <;> (try split) <;> (try split) <;> simp
    obtain ⟨b, bs, hcons⟩ : ∃ b bs, utf8EncodeChar r ++ utf8Bytes rs = b :: bs := by
      cases hc : utf8EncodeChar r with
      | nil => rw [hc] at hlen; simp at hlen
      | cons x xs => exact ⟨x, xs ++ utf8Bytes rs, by simp [hc]⟩
    rw [hbytes] at hfuel ⊢
    have hflen : (utf8EncodeChar r ++ utf8Bytes rs).length =
        (utf8EncodeChar r).length + (utf8Bytes rs).length := by
      simp
    cases fuel with
    | zero =>
      exfalso
      rw [hflen] at hfuel
      omega
    | succ f =>
      rw [hcons]
      simp only [latin1EncodeLoop]
      rw [← hcons, utf8DecodeRune_encodeChar r hr]
      simp only [if_pos (by omega : r ≤ 0xFF)]
      rw [ih hrs2 f (by rw [hflen] at hfuel; omega)]

/-! ## Claim theorems -/

/-- Claim C1, counterexample: the claim says ISO88591(s).Type() returns
0x03 for every byte string s; at the concrete input [72, 105] it returns
0x00, not 0x03. -/
theorem iso88591_type_not_0x03 : ISO88591Type [72, 105] ≠ 0x03 := by
  decide

/-- Claim C1, amended: the ISO-8859-1 codec reports data coding 0x00
(DefaultType), not 0x03: for every byte string s, ISO88591(s).Type()
returns 0x00. -/
theorem iso88591_type_is_default :
    ∀ s : List Nat, ISO88591Type s = 0x00 :=
  fun _ => rfl

/-- Claim C2: for every request/response pair of PDU command-id constants
defined in the pdu package, the response constant equals the request
constant with the high bit set (RespID = 0x80000000 ||| RequestID), and
GenericNACKID itself is exactly the high bit 0x80000000. -/
theorem pdu_resp_ids_high_bit :
    BindReceiverRespID = 0x80000000 ||| BindReceiverID ∧
    BindTransmitterRespID = 0x80000000 ||| BindTransmitterID ∧
    QuerySMRespID = 0x80000000 ||| QuerySMID ∧
    SubmitSMRespID = 0x80000000 ||| SubmitSMID ∧
    DeliverSMRespID = 0x80000000 ||| DeliverSMID ∧
    UnbindRespID = 0x80000000 ||| UnbindID ∧
    ReplaceSMRespID = 0x80000000 ||| ReplaceSMID ∧
    CancelSMRespID = 0x80000000 ||| CancelSMID ∧
    BindTransceiverRespID = 0x80000000 ||| BindTransceiverID ∧
    EnquireLinkRespID = 0x80000000 ||| EnquireLinkID ∧
    SubmitMultiRespID = 0x80000000 ||| SubmitMultiID ∧
    DataSMRespID = 0x80000000 ||| DataSMID ∧
    GenericNACKID = 0x80000000 := by
  decide

/-- Claim C3: the Bind PDUs built by NewBindTransmitter, NewBindReceiver
and NewBindTransceiver all carry exactly the mandatory fields system_id,
password, system_type, interface_version, addr_ton, addr_npi,
address_range, in that order — the same list for all three roles. -/
theorem bind_field_lists :
    NewBindTransmitter.FieldList =
      [SystemID, Password, SystemType, InterfaceVersion,
       AddrTON, AddrNPI, AddressRange] ∧
    NewBindReceiver.FieldList =
      [SystemID, Password, SystemType, InterfaceVersion,
       AddrTON, AddrNPI, AddressRange] ∧
    NewBindTransceiver.FieldList =
      [SystemID, Password, SystemType, InterfaceVersion,
       AddrTON, AddrNPI, AddressRange] :=
  ⟨rfl, rfl, rfl⟩

/-- Claim C4: the ISO-8859-1 codec is a 1:1 mapping.  Encoding the decode
of any byte string b gives back b, and for any UTF-8 string whose code
points all lie below 0x100 (given by its code points rs, with byte
representation utf8Bytes rs), decoding the encode gives back its UTF-8
bytes. -/
theorem iso88591_one_to_one (b rs : List Nat) (hb : ∀ x ∈ b, x < 0x100)
    (hrs : ∀ r ∈ rs, r < 0x100) :
    ISO88591Encode (ISO88591Decode b) = b ∧
    ISO88591Decode (ISO88591Encode (utf8Bytes rs)) = utf8Bytes rs := by
  constructor
  · have hdec : ISO88591Decode b = utf8Bytes b := by
      simp [ISO88591Decode, latin1TransformDec, utf8Bytes]
    rw [hdec]
    have henc := latin1EncodeLoop_utf8Bytes b hb (utf8Bytes b).length le_rfl
    simp [ISO88591Encode, latin1TransformEnc, henc]
  · have henc : ISO88591Encode (utf8Bytes rs) = rs := by
      have h := latin1EncodeLoop_utf8Bytes rs hrs (utf8Bytes rs).length le_rfl
      simp [ISO88591Encode, latin1TransformEnc, h]
    rw [henc]
    simp [ISO88591Decode, latin1TransformDec, utf8Bytes]

/-- Witness for C4 at concrete inputs: the bytes [0, 65, 200, 255] and
the code points [72, 233] (the string "Hé"). -/
theorem iso88591_one_to_one_witness :
    (∀ x ∈ [0, 65, 200, 255], x < 0x100) ∧
    (∀ r ∈ [72, 233], r < 0x100) ∧
    (ISO88591Encode (ISO88591Decode [0, 65, 200, 255]) = [0, 65, 200, 255] ∧
     ISO88591Decode (ISO88591Encode (utf8Bytes [72, 233])) =
       utf8Bytes [72, 233]) :=
  ⟨by decide, by decide,
    iso88591_one_to_one [0, 65, 200, 255] [72, 233] (by decide) (by decide)⟩

/-- Claim C5: the QuerySMResp body is exactly message_id, final_date,
message_state, error_code, in that order, and the QuerySM body is exactly
message_id followed by source_addr_ton, source_addr_npi, source_addr. -/
theorem querysm_field_lists :
    NewQuerySMResp.FieldList =
      [MessageID, FinalDate, MessageState, ErrorCode] ∧
    NewQuerySM.FieldList =
      [MessageID, SourceAddrTON, SourceAddrNPI, SourceAddr] :=
  ⟨rfl, rfl⟩

/-- Claim C6: the SubmitSMResp body consists of exactly one mandatory
field, message_id, and nothing else. -/
theorem submitsmresp_field_list :
    NewSubmitSMResp.FieldList = [MessageID] :=
  rfl

/-- Claim C7: NewDeliverSMRespSeq seq yields a PDU with header command id
DeliverSMRespID and header sequence seq, and NewEnquireLinkRespSeq seq
yields one with header command id EnquireLinkRespID and sequence seq. -/
theorem resp_seq_headers (seq : Nat) :
    (NewDeliverSMRespSeq seq).h.ID = DeliverSMRespID ∧
    (NewDeliverSMRespSeq seq).h.Seq = seq ∧
    (NewEnquireLinkRespSeq seq).h.ID = EnquireLinkRespID ∧
    (NewEnquireLinkRespSeq seq).h.Seq = seq :=
  ⟨rfl, rfl, rfl, rfl⟩

/-- Claim C8: ISO88591.Encode is total and deterministic on every input:
each input, including one whose characters fall outside the ISO-8859-1
alphabet, determines exactly one well-defined output, which is either the
successful charset transform or — when the transform rejects the input —
the input bytes themselves. -/
theorem iso88591_encode_total_det (s : List Nat) :
    ∃! out : List Nat, ISO88591Encode s = out ∧
      (latin1TransformEnc s = some out ∨
        (latin1TransformEnc s = none ∧ out = s)) := by
  refine ⟨ISO88591Encode s, ⟨rfl, ?_⟩, ?_⟩
  · cases h : latin1TransformEnc s with
    | none => exact Or.inr ⟨rfl, by simp [ISO88591Encode, h]⟩
    | some es => exact Or.inl (by simp [ISO88591Encode, h])
  · rintro y ⟨hy, -⟩
    exact hy.symm

/-- Claim C9: GenericNACK, Unbind, EnquireLink and EnquireLinkResp are
constructed with an empty mandatory-field list, and the freshly
constructed PDUs carry no populated mandatory fields. -/
theorem header_only_pdus_no_fields :
    NewGenericNACK.FieldList = [] ∧ NewGenericNACK.Fields = [] ∧
    NewUnbind.FieldList = [] ∧ NewUnbind.Fields = [] ∧
    NewEnquireLink.FieldList = [] ∧ NewEnquireLink.Fields = [] ∧
    NewEnquireLinkResp.FieldList = [] ∧ NewEnquireLinkResp.Fields = [] :=
  ⟨rfl, rfl, rfl, rfl, rfl, rfl, rfl, rfl⟩

/-- Claim C10: for every input, ISO88591.Encode yields either the fully
transformed bytes or, when the charset transform reports an error, the
input itself; ISO88591.Decode has the same shape (its transform never
errors, so the transformed branch always applies). -/
theorem iso88591_error_fallback (s : List Nat) :
    ((∃ es, latin1TransformEnc s = some es ∧ ISO88591Encode s = es) ∨
      (latin1TransformEnc s = none ∧ ISO88591Encode s = s)) ∧
    ((∃ ds, latin1TransformDec s = some ds ∧ ISO88591Decode s = ds) ∨
      (latin1TransformDec s = none ∧ ISO88591Decode s = s)) := by
  constructor
  · cases h : latin1TransformEnc s with
    | none => exact Or.inr ⟨rfl, by simp [ISO88591Encode, h]⟩
    | some es => exact Or.inl ⟨es, rfl, by simp [ISO88591Encode, h]⟩
  · exact Or.inl ⟨s.flatMap utf8EncodeChar, rfl, rfl⟩

end GoSmpp
